import Mathlib

/-!
Verification of the core algorithms of the image-resizer repository:
the EXIF orientation decoder and reorientation transformer, the resize
geometry calculator, and the target-size compressors.  Each definition is a
shallow embedding of one JavaScript function from the repository; the source
file and function are named in its doc comment.  Browser primitives are
abstracted: the encoder `canvas.toBlob` becomes an explicit size oracle
(a function from mime type and quality scalar to a byte count), a canvas
becomes a width, a height and a pixel function, and `DataView` reads become
bounds-checked reads in the `Except` monad (a read past the end of the
buffer is the thrown `RangeError`).
-/

/-- The three mime types the tool handles (`image/jpeg`, `image/webp`,
`image/png`). -/
inductive Mime where
  | jpeg
  | webp
  | png
deriving DecidableEq, Repr

/-- A canvas: a pixel surface with a width, a height and a pixel lookup
function.  Pixel values are abstract naturals; coordinates outside the
`width × height` rectangle are irrelevant (comparisons use `Canvas.EqOn`). -/
structure Canvas where
  width : ℕ
  height : ℕ
  pix : ℕ → ℕ → ℕ

/-- Bit-for-bit equality of two pixel surfaces: same dimensions and the same
pixel value at every coordinate inside the rectangle. -/
def Canvas.EqOn (a b : Canvas) : Prop :=
  a.width = b.width ∧ a.height = b.height ∧
    ∀ x y, x < a.width → y < a.height → a.pix x y = b.pix x y

/-- An encoded blob, identified by the mime type and quality it was encoded
with and its byte size (`blob.size`). -/
structure Blob where
  mime : Mime
  quality : ℚ
  size : ℕ
deriving DecidableEq, Repr

/-- JavaScript `Math.round`: round half toward positive infinity. -/
def jsRound (x : ℚ) : ℤ := ⌊x + 1 / 2⌋

/-- JavaScript `Number.prototype.toFixed(3)` followed by unary `+`, for the
non-negative arguments that occur in the quality search: round to the nearest
multiple of `1/1000`, halves away from zero. -/
def jsToFixed3 (x : ℚ) : ℚ := ((⌊x * 1000 + 1 / 2⌋ : ℤ) : ℚ) / 1000

/-- JavaScript truthiness of a nullable numeric form value: `null` and `0`
are falsy. -/
def jsTruthy : Option ℚ → Bool
  | none => false
  | some v => v != 0

/-- `orientation ∈ [5,6,7,8]`, the tags whose transform swaps the axes
(`[5,6,7,8].includes(orientation)` in `src/utils.js`). -/
def swapTag (orientation : ℕ) : Bool :=
  orientation = 5 ∨ orientation = 6 ∨ orientation = 7 ∨ orientation = 8

/-- `applyOrientation(canvas, orientation)` from `src/utils.js` lines 59-88.
Tag 1 returns the input canvas itself.  Otherwise a fresh canvas is allocated
with swapped dimensions for tags 5-8 and the source is redrawn through the
tag's affine transform; the `ctx.transform`/`drawImage` pair is embedded as
the induced permutation of pixel indices (destination pixel of the output
reads the source pixel the affine map sends onto it). -/
def applyOrientation (canvas : Canvas) (orientation : ℕ) : Canvas :=
  if orientation = 1 then canvas
  else
    { width := if swapTag orientation then canvas.height else canvas.width
      height := if swapTag orientation then canvas.width else canvas.height
      pix := fun x y =>
        match orientation with
        | 2 => canvas.pix (canvas.width - 1 - x) y
        | 3 => canvas.pix (canvas.width - 1 - x) (canvas.height - 1 - y)
        | 4 => canvas.pix x (canvas.height - 1 - y)
        | 5 => canvas.pix y x
        | 6 => canvas.pix y (canvas.height - 1 - x)
        | 7 => canvas.pix (canvas.width - 1 - y) (canvas.height - 1 - x)
        | 8 => canvas.pix (canvas.width - 1 - y) x
        | _ => canvas.pix x y }

/-- `convertResize(wVal, hVal, type, imgW, imgH)` from `src/utils.js`
lines 114-145.  `wVal`/`hVal` are the nullable form inputs; `type` is the
unit string.  Note the function has branches for `"px"`, `"percent"` and
`"cm"` only; every other unit string (including `"longest"`, which
`src/app.js` passes) reaches the fallback returning the source dimensions. -/
def convertResize (wVal hVal : Option ℚ) (type : String) (imgW imgH : ℚ) : ℚ × ℚ :=
  if type = "px" then
    ((if jsTruthy wVal then wVal.getD 0 else imgW),
     (if jsTruthy hVal then hVal.getD 0 else imgH))
  else if type = "percent" then
    ((if jsTruthy wVal then imgW * (wVal.getD 0 / 100) else imgW),
     (if jsTruthy hVal then imgH * (hVal.getD 0 / 100) else imgH))
  else if type = "cm" then
    ((if jsTruthy wVal then ((jsRound (wVal.getD 0 * (96 / (254 / 100))) : ℤ) : ℚ) else imgW),
     (if jsTruthy hVal then ((jsRound (hVal.getD 0 * (96 / (254 / 100))) : ℤ) : ℚ) else imgH))
  else (imgW, imgH)

/-- The `convertResize` variant of `src/unnamed/part_003` lines 127-148: the
`"percent"` results are rounded and a `"longest"` branch scales the larger
source dimension to the requested value, the other axis by the same ratio. -/
def convertResizeP3 (width height : Option ℚ) (type : String) (imgW imgH : ℚ) : ℚ × ℚ :=
  if type = "px" then
    ((if jsTruthy width then width.getD 0 else imgW),
     (if jsTruthy height then height.getD 0 else imgH))
  else if type = "percent" then
    (((jsRound (if jsTruthy width then imgW * (width.getD 0 / 100) else imgW) : ℤ) : ℚ),
     ((jsRound (if jsTruthy height then imgH * (height.getD 0 / 100) else imgH) : ℤ) : ℚ))
  else if type = "longest" then
    ((jsRound (imgW * ((if jsTruthy width then width.getD 0 else imgW) /
        (if imgW > imgH then imgW else imgH))) : ℚ),
     (jsRound (imgH * ((if jsTruthy width then width.getD 0 else imgW) /
        (if imgW > imgH then imgW else imgH))) : ℚ))
  else (imgW, imgH)

/-- The `convertResize` variant of `src/unnamed/part_004` lines 177-227: with
unit `"percent"` and only one percentage supplied, both axes scale by that
single factor (uniform scale); with both supplied each axis scales
independently. -/
def convertResizeP4 (wVal hVal : Option ℚ) (type : String) (imgW imgH : ℚ) (dpi : ℚ) : ℚ × ℚ :=
  if type = "px" then
    ((if jsTruthy wVal then wVal.getD 0 else imgW),
     (if jsTruthy hVal then hVal.getD 0 else imgH))
  else if type = "percent" then
    if jsTruthy wVal ∧ ¬ jsTruthy hVal then
      (imgW * (wVal.getD 0 / 100), imgH * (wVal.getD 0 / 100))
    else if jsTruthy hVal ∧ ¬ jsTruthy wVal then
      (imgW * (hVal.getD 0 / 100), imgH * (hVal.getD 0 / 100))
    else
      (imgW * (wVal.getD 0 / 100), imgH * (hVal.getD 0 / 100))
  else if type = "cm" then
    ((if jsTruthy wVal then ((jsRound (wVal.getD 0 * (dpi / (254 / 100))) : ℤ) : ℚ) else imgW),
     (if jsTruthy hVal then ((jsRound (hVal.getD 0 * (dpi / (254 / 100))) : ℤ) : ℚ) else imgH))
  else (imgW, imgH)

/-! ### EXIF orientation decoder (`src/utils.js` lines 21-56)

`DataView` reads are embedded in `Except Unit`: `Except.error ()` is the
`RangeError` a read past the end of the buffer throws. -/

/-- One byte of the buffer, or the thrown `RangeError` when out of range. -/
def getU8 (b : List ℕ) (i : ℕ) : Except Unit ℕ :=
  match b.get? i with
  | some v => Except.ok v
  | none => Except.error ()

/-- `DataView.getUint16(i, false)` (big-endian). -/
def getU16BE (b : List ℕ) (i : ℕ) : Except Unit ℕ :=
  match getU8 b i, getU8 b (i + 1) with
  | Except.ok x, Except.ok y => Except.ok (x * 256 + y)
  | Except.error e, _ => Except.error e
  | _, Except.error e => Except.error e

/-- `DataView.getUint16(i, little)`. -/
def getU16At (b : List ℕ) (little : Bool) (i : ℕ) : Except Unit ℕ :=
  match getU8 b i, getU8 b (i + 1) with
  | Except.ok x, Except.ok y => Except.ok (if little then x + y * 256 else x * 256 + y)
  | Except.error e, _ => Except.error e
  | _, Except.error e => Except.error e

/-- `DataView.getUint32(i, false)` (big-endian). -/
def getU32BE (b : List ℕ) (i : ℕ) : Except Unit ℕ :=
  match getU8 b i, getU8 b (i + 1), getU8 b (i + 2), getU8 b (i + 3) with
  | Except.ok a, Except.ok x, Except.ok y, Except.ok z =>
      Except.ok (((a * 256 + x) * 256 + y) * 256 + z)
  | Except.error e, _, _, _ => Except.error e
  | _, Except.error e, _, _ => Except.error e
  | _, _, Except.error e, _ => Except.error e
  | _, _, _, Except.error e => Except.error e

/-- The directory scan inside the APP1 branch of `getExifOrientation`
(`for (let i = 0; i < tags; i++) ...`on `src/utils.js` lines 44-49): walk the
12-byte entries at `dir`, returning the 2-byte value at entry offset 8 for
tag `0x0112`, `none` when the directory is exhausted. -/
def scanTags (b : List ℕ) (little : Bool) (dir : ℕ) : ℕ → ℕ → Except Unit (Option ℕ)
  | 0, _ => Except.ok none
  | n + 1, i =>
    match getU16At b little (dir + i * 12) with
    | Except.error e => Except.error e
    | Except.ok tag =>
      if tag = 0x0112 then
        match getU16At b little (dir + i * 12 + 8) with
        | Except.error e => Except.error e
        | Except.ok v => Except.ok (some v)
      else scanTags b little dir n (i + 1)

/-- The APP1 branch of `getExifOrientation` (`src/utils.js` lines 36-50),
entered with `offset` just past the marker word: verify the `"Exif"`
signature at `offset + 2` (a mismatch breaks out of the scan, yielding the
default 1), read the byte-order word at `offset + 8`, the entry count at
`offset + 12`, and scan the directory at `offset + 14`; a missing orientation
tag also falls through to the default 1. -/
def app1Branch (b : List ℕ) (offset : ℕ) : Except Unit ℕ :=
  match getU32BE b (offset + 2) with
  | Except.error e => Except.error e
  | Except.ok sig =>
    if sig ≠ 0x45786966 then Except.ok 1
    else
      match getU16BE b (offset + 8) with
      | Except.error e => Except.error e
      | Except.ok bo =>
        match getU16At b (bo = 0x4949) (offset + 10 + 2) with
        | Except.error e => Except.error e
        | Except.ok tags =>
          match scanTags b (bo = 0x4949) (offset + 10 + 4) tags 0 with
          | Except.error e => Except.error e
          | Except.ok (some v) => Except.ok v
          | Except.ok none => Except.ok 1

/-- The marker-walking `while (offset < length)` loop of
`getExifOrientation` (`src/utils.js` lines 32-54).  Non-APP1 segments are
skipped by their declared big-endian length; the loop always advances
`offset` by at least 2, which is the well-founded measure. -/
def exifScan (b : List ℕ) (len : ℕ) (offset : ℕ) : Except Unit ℕ :=
  if _h : offset < len then
    match getU16BE b offset with
    | Except.error e => Except.error e
    | Except.ok marker =>
      if marker = 0xFFE1 then app1Branch b (offset + 2)
      else
        match getU16BE b (offset + 2) with
        | Except.error e => Except.error e
        | Except.ok seg => exifScan b len (offset + 2 + seg)
  else Except.ok 1
termination_by len - offset
decreasing_by omega

/-- Prefix test on character lists, for the JavaScript `String.includes`
model. -/
def charsPrefix : List Char → List Char → Bool
  | [], _ => true
  | _ :: _, [] => false
  | a :: as, b :: bs => a = b && charsPrefix as bs

/-- Infix test on character lists. -/
def charsInfix (sub : List Char) : List Char → Bool
  | [] => charsPrefix sub []
  | c :: rest => charsPrefix sub (c :: rest) || charsInfix sub rest

/-- JavaScript `s.includes(sub)`. -/
def jsIncludes (s sub : String) : Bool := charsInfix sub.toList s.toList

/-- A `File` as the decoder sees it: its reported mime-type string and its
raw bytes (`await file.arrayBuffer()`). -/
structure JSFile where
  ftype : String
  bytes : List ℕ

/-- `getExifOrientation(file)` from `src/utils.js` lines 21-56.  Non-JPEG
typed files short-circuit to 1; a buffer whose first word is not the `0xFFD8`
SOI marker yields 1; otherwise the marker scan starts at offset 2.  The
function body has no `try`/`catch`, so any out-of-range `DataView` read
(`Except.error ()`) propagates to the caller as a rejected promise. -/
def getExifOrientation (file : JSFile) : Except Unit ℕ :=
  if ¬ jsIncludes file.ftype "jpeg" ∧ ¬ jsIncludes file.ftype "jpg" then Except.ok 1
  else
    match getU16BE file.bytes 0 with
    | Except.error e => Except.error e
    | Except.ok soi =>
      if soi ≠ 0xFFD8 then Except.ok 1
      else exifScan file.bytes file.bytes.length 2

/-! ### Target-size compressor (`src/utils.js` lines 148-199)

The external encoder primitive `canvas.toBlob(cb, mime, quality)` is
abstracted as a deterministic size oracle `enc : Canvas → Mime → ℚ → ℕ`; the
blob it produces carries the requested mime type, the quality it was encoded
at, and that size.  Every byte count the source compares against
`targetBytes` is a natural; `targetBytes` itself is an integer because the
caller may pass any number and the source guard only tests JavaScript
falsiness (`!targetBytes`, i.e. `targetBytes = 0`). -/

/-- `Math.abs(size - targetBytes)`: absolute distance of an encoded size
from the target byte count. -/
def qdiff (target : ℤ) (size : ℕ) : ℕ := ((size : ℤ) - target).natAbs

/-- `canvasToBlob(canvas, mime, quality)` (`src/utils.js` lines 91-95)
through the encoder oracle. -/
def canvasToBlob (enc : Canvas → Mime → ℚ → ℕ) (canvas : Canvas)
    (mime : Mime) (quality : ℚ) : Blob :=
  { mime := mime, quality := quality, size := enc canvas mime quality }

/-- The best-candidate update of the bisection loop (`src/utils.js`
lines 179-182): replace the best candidate exactly when the new attempt's
distance is strictly smaller (the stored pair is the attempt's quality and
size; `bestDiff` is recomputed from the stored size). -/
def updateBest (target : ℤ) (q : ℚ) (size : ℕ) :
    Option (ℚ × ℕ) → Option (ℚ × ℕ)
  | none => some (q, size)
  | some (bq, bs) => if qdiff target size < qdiff target bs then some (q, size) else some (bq, bs)

/-- The quality-bisection loop of `compressCanvasToTarget` (`src/utils.js`
lines 172-191): at most `fuel` iterations; each encodes at the midpoint of
`[low, high]`, updates the best candidate, halves the interval toward the
target (`size > targetBytes` lowers `high`, otherwise `low` rises), and
breaks once the current attempt's relative distance is within tolerance.
Returns the final best candidate and the list of qualities encoded at. -/
def cctLoop (enc : Canvas → Mime → ℚ → ℕ) (canvas : Canvas) (mime : Mime)
    (target : ℤ) (tol : ℚ) :
    ℕ → ℚ → ℚ → Option (ℚ × ℕ) → Option (ℚ × ℕ) × List ℚ
  | 0, _, _, best => (best, [])
  | fuel + 1, low, high, best =>
    let q := (low + high) / 2
    let size := enc canvas mime q
    let best' := updateBest target q size best
    let low' := if (size : ℤ) > target then low else q
    let high' := if (size : ℤ) > target then q else high
    if ((qdiff target size : ℕ) : ℚ) / (target : ℚ) ≤ tol then (best', [q])
    else
      let r := cctLoop enc canvas mime target tol fuel low' high' best'
      (r.1, q :: r.2)

/-- The result object of `compressCanvasToTarget`:
`{ blob, achievedBytes, width, height }`. -/
structure CCTResult where
  blob : Blob
  achievedBytes : ℕ
  width : ℕ
  height : ℕ
deriving DecidableEq, Repr

/-- `compressCanvasToTarget(canvas, options)` from `src/utils.js`
lines 148-199 (defaults: `maxIterations = 12`, `tolerance = 0.03`).  The
guard `!targetBytes || mime === "image/png"` encodes once at quality 1 and
returns immediately.  Otherwise the bisection runs over `[0.1, 0.98]` and
the best candidate is returned with the canvas's dimensions; if the loop ran
zero iterations `best` is still `null` and reading `best.blob` throws, which
is the `none` result.  The second component lists every quality passed to
the encoder. -/
def compressCanvasToTarget (enc : Canvas → Mime → ℚ → ℕ) (canvas : Canvas)
    (mime : Mime) (targetBytes : ℤ) (maxIterations : ℕ) (tolerance : ℚ) :
    Option CCTResult × List ℚ :=
  if targetBytes = 0 ∨ mime = Mime.png then
    let blob := canvasToBlob enc canvas mime 1
    (some { blob := blob, achievedBytes := blob.size
            width := canvas.width, height := canvas.height }, [1])
  else
    let r := cctLoop enc canvas mime targetBytes tolerance maxIterations (1 / 10) (49 / 50) none
    match r.1 with
    | none => (none, r.2)
    | some (q, size) =>
      (some { blob := canvasToBlob enc canvas mime q, achievedBytes := size
              width := canvas.width, height := canvas.height }, r.2)

/-! ### Binary-search compressor of `src/unnamed/part_002` (lines 133-173)

Here the encoder may fail: `canvasToBlob(...).catch(() => null)` is an
oracle `enc : ℚ → Option ℕ` returning `none` for a null blob. -/

/-- How the bisection loop of `compressToTargetSize` ended: an early
`return blob` from inside the loop (within 3 KB of the target), or falling
through to the code after the loop with the best candidate so far (`none`
when the loop broke before any successful encode). -/
inductive CttsExit where
  | returned (size : ℕ)
  | finished (best : Option ℕ)
deriving DecidableEq, Repr

/-- The 12-iteration bisection loop of `compressToTargetSize`
(`src/unnamed/part_002` lines 143-168).  A `null` blob (`enc q = none`)
breaks the loop at once.  Otherwise the best candidate is updated on strict
improvement, the current blob is returned when within `3 * 1024` bytes of
the target, and the interval is halved.  Also returns the qualities encoded
at. -/
def cttsLoop (enc : ℚ → Option ℕ) (target : ℕ) :
    ℕ → ℚ → ℚ → Option ℕ → CttsExit × List ℚ
  | 0, _, _, best => (CttsExit.finished best, [])
  | fuel + 1, low, high, best =>
    let q := (low + high) / 2
    match enc q with
    | none => (CttsExit.finished best, [q])
    | some size =>
      let best' :=
        match best with
        | none => some size
        | some b => if qdiff (target : ℤ) size < qdiff (target : ℤ) b then some size else some b
      if qdiff (target : ℤ) size ≤ 3 * 1024 then (CttsExit.returned size, [q])
      else
        let low' := if size > target then low else q
        let high' := if size > target then q else high
        let r := cttsLoop enc target fuel low' high' best'
        (r.1, q :: r.2)

/-- `kbToBytes(kb)` from `src/unnamed/part_002` lines 120-122:
`Math.max(0, Math.round(kb * 1024))`. -/
def kbToBytes (kb : ℚ) : ℕ := (jsRound (kb * 1024)).toNat

/-- `compressToTargetSize(canvas, mime, targetKB)` from
`src/unnamed/part_002` lines 133-173: bisection over `[0.05, 0.98]`; after
the loop the best blob is returned if one exists, otherwise a single
fallback encode at the default quality 0.8 (whose result may itself be
null).  The second component lists the qualities passed to the encoder. -/
def compressToTargetSize (enc : ℚ → Option ℕ) (targetKB : ℚ) :
    Option ℕ × List ℚ :=
  let target := kbToBytes targetKB
  let r := cttsLoop enc target 12 (1 / 20) (49 / 50) none
  match r.1 with
  | CttsExit.returned s => (some s, r.2)
  | CttsExit.finished (some b) => (some b, r.2)
  | CttsExit.finished none => (enc (4 / 5), r.2 ++ [4 / 5])

/-! ### `tryMatchTargetSize` (`src/app.js` lines 113-222)

The encoder oracle here also depends on the canvas dimensions, since the
outer loop re-encodes progressively downscaled canvases:
`encA : ℕ → ℕ → Mime → ℚ → ℕ` maps width, height, mime and quality to the
encoded byte size.  The trace records every encode call as
`(width, height, mime, quality)`. -/

/-- The result object of `tryMatchTargetSize`:
`{ blob, width, height, mime }`. -/
structure TMTResult where
  blob : Blob
  width : ℕ
  height : ℕ
  mime : Mime
deriving DecidableEq, Repr

/-- One downscaled dimension (`src/app.js` lines 184-185):
`Math.max(1, Math.round(dim * 0.85))`. -/
def downscaleDim (n : ℕ) : ℕ := max 1 (jsRound ((n : ℚ) * (85 / 100))).toNat

/-- The 18-iteration inner bisection of `tryMatchTargetSize` (`src/app.js`
lines 150-170): the midpoint is rounded to three decimals (`toFixed(3)`)
and the loop breaks when it repeats (`mid === lastMid`); otherwise encode,
update the best blob on strict improvement, halve the interval, and break
early within `max(2000, 2%)` bytes of the target. -/
def tmtLoop (encA : ℕ → ℕ → Mime → ℚ → ℕ) (w h : ℕ) (tmime : Mime) (target : ℕ) :
    ℕ → ℚ → ℚ → Option Blob → ℚ → Option Blob × List ℚ
  | 0, _, _, best, _ => (best, [])
  | fuel + 1, low, high, best, lastMid =>
    let mid := jsToFixed3 ((low + high) / 2)
    if mid = lastMid then (best, [])
    else
      let size := encA w h tmime mid
      let best' :=
        match best with
        | none => some { mime := tmime, quality := mid, size := size }
        | some b =>
          if qdiff (target : ℤ) size < qdiff (target : ℤ) b.size then
            some { mime := tmime, quality := mid, size := size }
          else some b
      let low' := if size > target then low else mid
      let high' := if size > target then mid else high
      if ((qdiff (target : ℤ) size : ℕ) : ℚ) ≤ max 2000 ((target : ℚ) * (2 / 100)) then
        (best', [mid])
      else
        let r := tmtLoop encA w h tmime target fuel low' high' best' mid
        (r.1, mid :: r.2)

/-- The outer attempt loop of `tryMatchTargetSize` (`src/app.js`
lines 127-221), at most 8 rounds.  A PNG request with a target under 50 KB
is switched to WebP for the round.  Lossy rounds first take a baseline
encode at quality 0.98 and return it immediately when it already fits the
budget; then the inner bisection runs over `[0.22, 0.98]`; its best blob is
returned when within `max(3000, 3%)` of the target or not above it, and
otherwise the canvas is downscaled by 0.85 per axis and the next round
starts.  PNG rounds encode once at quality 1 and downscale when too large.
Exhausting all rounds falls back to one encode at quality 0.8 in the
originally requested mime. -/
def tmtOuter (encA : ℕ → ℕ → Mime → ℚ → ℕ) (target : ℕ) (mime : Mime) :
    ℕ → ℕ → ℕ → TMTResult × List (ℕ × ℕ × Mime × ℚ)
  | 0, w, h =>
    ({ blob := { mime := mime, quality := 4 / 5, size := encA w h mime (4 / 5) }
       width := w, height := h, mime := mime }, [(w, h, mime, 4 / 5)])
  | fuel + 1, w, h =>
    let tmime := if mime = Mime.png ∧ target < 50 * 1024 then Mime.webp else mime
    if tmime = Mime.png then
      let size := encA w h tmime 1
      if size ≤ target then
        ({ blob := { mime := tmime, quality := 1, size := size }
           width := w, height := h, mime := tmime }, [(w, h, tmime, 1)])
      else
        let r := tmtOuter encA target mime fuel (downscaleDim w) (downscaleDim h)
        (r.1, (w, h, tmime, 1) :: r.2)
    else
      let base := encA w h tmime (49 / 50)
      if base ≤ target then
        ({ blob := { mime := tmime, quality := 49 / 50, size := base }
           width := w, height := h, mime := tmime }, [(w, h, tmime, 49 / 50)])
      else
        let lr := tmtLoop encA w h tmime target 18 (11 / 50) (49 / 50) none (-1)
        let innerTrace := lr.2.map fun q => (w, h, tmime, q)
        match lr.1 with
        | some b =>
          if ((qdiff (target : ℤ) b.size : ℕ) : ℚ) ≤ max 3000 ((target : ℚ) * (3 / 100)) then
            ({ blob := b, width := w, height := h, mime := tmime },
             (w, h, tmime, 49 / 50) :: innerTrace)
          else if b.size ≤ target then
            ({ blob := b, width := w, height := h, mime := tmime },
             (w, h, tmime, 49 / 50) :: innerTrace)
          else
            let r := tmtOuter encA target mime fuel (downscaleDim w) (downscaleDim h)
            (r.1, ((w, h, tmime, 49 / 50) :: innerTrace) ++ r.2)
        | none =>
          let r := tmtOuter encA target mime fuel (downscaleDim w) (downscaleDim h)
          (r.1, ((w, h, tmime, 49 / 50) :: innerTrace) ++ r.2)

/-- `tryMatchTargetSize(sourceCanvas, targetKB, mimePref)` from `src/app.js`
lines 113-222: `targetBytes = Math.max(1, Math.floor(targetKB * 1024))`,
`mime = mimePref || 'image/jpeg'`, then the 8-round attempt loop starting
from the source canvas's dimensions. -/
def tryMatchTargetSize (encA : ℕ → ℕ → Mime → ℚ → ℕ) (canvas : Canvas)
    (targetKB : ℚ) (mimePref : Option Mime) : TMTResult × List (ℕ × ℕ × Mime × ℚ) :=
  let target := (max 1 ⌊targetKB * 1024⌋).toNat
  let mime := mimePref.getD Mime.jpeg
  tmtOuter encA target mime 8 canvas.width canvas.height

/-! ### Concrete fixtures used by counterexamples and witnesses -/

/-- A small concrete pixel surface. -/
def testCanvas : Canvas := { width := 3, height := 2, pix := fun x y => x + 10 * y }

/-- An encoder whose size depends on whether the quality is the maximum 1:
maximum quality encodes to 50 bytes, every other quality to 100 bytes. -/
def encMaxSensitive : Canvas → Mime → ℚ → ℕ := fun _ _ q => if q = 1 then 50 else 100

/-- A constant-size encoder. -/
def encConst : Canvas → Mime → ℚ → ℕ := fun _ _ _ => 5

/-- A fallible encoder that returns a null blob exactly at the first
midpoint quality `(0.05 + 0.98) / 2 = 0.515` of `compressToTargetSize` and
succeeds at every other quality. -/
def encOneNull : ℚ → Option ℕ := fun q => if q = 103 / 200 then none else some 1000000

/-! ## Theorems -/

/-- Claim C2 (code evaluation): on a JPEG-typed file whose buffer is the SOI
marker followed by a single truncated byte, `getExifOrientation` from
`src/utils.js` throws (the marker read at offset 2 runs past the end of the
3-byte buffer and the function has no `try`/`catch`), so the decoder does
not return the default tag 1 for this malformed/truncated input. -/
theorem getExifOrientation_truncated_throws :
    getExifOrientation { ftype := "image/jpeg", bytes := [255, 216, 0] } = Except.error () ∧
    getExifOrientation { ftype := "image/jpeg", bytes := [255, 216, 0] } ≠ Except.ok 1 := by
  have h : getExifOrientation { ftype := "image/jpeg", bytes := [255, 216, 0] } =
      Except.error () := by
    rw [getExifOrientation]
    norm_num [jsIncludes, charsInfix, charsPrefix, getU16BE, getU8]
    rw [exifScan]
    norm_num [getU16BE, getU8]
  refine ⟨h, ?_⟩
  rw [h]
  intro hc
  cases hc

/-- Counterexample to claim C3 as stated: in `src/utils.js`,
`convertResize(50, null, "percent", 200, 100)` leaves the unspecified axis
at its source dimension, yielding `(100, 100)`, not the uniform-scale
`(100, 50)`. -/
theorem convertResize_percent_counterexample :
    convertResize (some 50) none "percent" 200 100 = (100, 100) ∧
    convertResize (some 50) none "percent" 200 100 ≠ (100, 50) := by
  have h : convertResize (some 50) none "percent" 200 100 = (100, 100) := by
    norm_num [convertResize, jsTruthy]
    decide
  refine ⟨h, ?_⟩
  rw [h]
  norm_num [Prod.ext_iff]

/-- Claim C3 as amended: with unit `"percent"` and only a width percentage
supplied, the `src/utils.js` `convertResize` scales only the width axis and
returns the source height unchanged, while the `part_004` variant applies
the single factor uniformly to both axes. -/
theorem convertResize_percent_single_axis (w imgW imgH : ℚ) (hw : w ≠ 0) :
    convertResize (some w) none "percent" imgW imgH = (imgW * (w / 100), imgH) ∧
    convertResizeP4 (some w) none "percent" imgW imgH 96 =
      (imgW * (w / 100), imgH * (w / 100)) := by
  constructor
  · simp [convertResize, jsTruthy, hw]
  · simp [convertResizeP4, jsTruthy, hw]

/-- Witness for the amended C3 at the spec's example input. -/
theorem convertResize_percent_single_axis_witness :
    (50 : ℚ) ≠ 0 ∧
    convertResize (some 50) none "percent" 200 100 = (200 * (50 / 100), 100) ∧
    convertResizeP4 (some 50) none "percent" 200 100 96 =
      (200 * (50 / 100), 100 * (50 / 100)) :=
  ⟨by norm_num,
    (convertResize_percent_single_axis 50 200 100 (by norm_num)).1,
    (convertResize_percent_single_axis 50 200 100 (by norm_num)).2⟩

/-- Claim C4 (code evaluation): `src/utils.js` has no `"longest"` branch in
`convertResize`, so `convertResize(100, null, "longest", 400, 200)` falls
through to the fallback and returns the source dimensions `(400, 200)`
rather than the claimed `(100, 50)`; the `part_003` variant implements the
longest-side scaling and does return `(100, 50)` on the same input. -/
theorem convertResize_longest_missing :
    convertResize (some 100) none "longest" 400 200 = (400, 200) ∧
    convertResize (some 100) none "longest" 400 200 ≠ (100, 50) ∧
    convertResizeP3 (some 100) none "longest" 400 200 = (100, 50) := by
  have h1 : convertResize (some 100) none "longest" 400 200 = (400, 200) := by
    simp [convertResize, jsTruthy]
  have h3 : convertResizeP3 (some 100) none "longest" 400 200 = (100, 50) := by
    simp [convertResizeP3, jsTruthy, jsRound]
    norm_num
  refine ⟨h1, ?_, h3⟩
  rw [h1]
  norm_num [Prod.ext_iff]

/-- Counterexample to claim C5 as stated: with `targetBytes = -1 ≤ 0` and
mime `image/jpeg`, the guard `!targetBytes` of `compressCanvasToTarget` is
not triggered (only `0` is falsy), so the routine enters quality bisection:
the single encode happens at the midpoint quality 0.54 rather than at
maximum quality 1, and the returned size is the midpoint encode's 100
bytes, not the 50 bytes a maximum-quality encode would produce. -/
theorem compressCanvasToTarget_negative_target_counterexample :
    compressCanvasToTarget encMaxSensitive testCanvas Mime.jpeg (-1) 12 (3 / 100) =
      (some { blob := { mime := Mime.jpeg, quality := 27 / 50, size := 100 },
              achievedBytes := 100, width := 3, height := 2 }, [27 / 50]) ∧
    (27 / 50 : ℚ) ≠ 1 ∧
    encMaxSensitive testCanvas Mime.jpeg 1 = 50 := by
  refine ⟨?_, by norm_num, by simp [encMaxSensitive]⟩
  simp [compressCanvasToTarget, cctLoop, updateBest, qdiff, canvasToBlob, encMaxSensitive,
    testCanvas]
  norm_num

/-- Claim C5 as amended: when `targetBytes` is 0 (JavaScript-falsy) or the
mime is `image/png` — regardless of `targetBytes` — `compressCanvasToTarget`
performs exactly one encode, at maximum quality 1, in the originally
requested format, never enters bisection, and reports `achievedBytes` equal
to the size of that encoded blob. -/
theorem compressCanvasToTarget_guard (enc : Canvas → Mime → ℚ → ℕ) (canvas : Canvas)
    (mime : Mime) (targetBytes : ℤ) (maxIterations : ℕ) (tolerance : ℚ)
    (h : targetBytes = 0 ∨ mime = Mime.png) :
    compressCanvasToTarget enc canvas mime targetBytes maxIterations tolerance =
      (some { blob := { mime := mime, quality := 1, size := enc canvas mime 1 },
              achievedBytes := enc canvas mime 1,
              width := canvas.width, height := canvas.height }, [1]) := by
  rw [compressCanvasToTarget, if_pos h]
  rfl

/-- Witness for the amended C5: a PNG request with a (nonzero) target. -/
theorem compressCanvasToTarget_guard_witness :
    ((7 : ℤ) = 0 ∨ Mime.png = Mime.png) ∧
    compressCanvasToTarget encConst testCanvas Mime.png 7 12 (3 / 100) =
      (some { blob := { mime := Mime.png, quality := 1, size := encConst testCanvas Mime.png 1 },
              achievedBytes := encConst testCanvas Mime.png 1,
              width := testCanvas.width, height := testCanvas.height }, [1]) :=
  ⟨Or.inr rfl,
    compressCanvasToTarget_guard encConst testCanvas Mime.png 7 12 (3 / 100) (Or.inr rfl)⟩

/-- Counterexample to claim C8 as stated: under `encOneNull` the encoder
returns a null blob exactly once — at the first midpoint quality 0.515,
never twice in a row — yet `compressToTargetSize` abandons the bisection
immediately (the trace shows a single bisection encode followed by the
default-quality 0.8 fallback encode) instead of continuing the search. -/
theorem compressToTargetSize_single_null_counterexample :
    compressToTargetSize encOneNull 100 = (some 1000000, [103 / 200, 4 / 5]) ∧
    (([103 / 200, 4 / 5] : List ℚ).filter (fun q => (encOneNull q).isNone)).length = 1 := by
  constructor
  · simp [compressToTargetSize, cttsLoop, kbToBytes, jsRound, encOneNull, qdiff]
    norm_num
  · norm_num [List.filter, encOneNull]

/-- Claim C8 as amended: a single null encoder result aborts the bisection
of `compressToTargetSize` immediately — the loop exits at that iteration
with the best candidate seen so far — and when no candidate exists yet the
routine returns one fallback encode at the default quality 0.8 (so the
failure is never propagated as fatal).  The first conjunct is the top-level
behavior when the very first encode is null; the second is the loop-level
abort for an arbitrary iteration. -/
theorem compressToTargetSize_single_null_fallback (enc : ℚ → Option ℕ) (targetKB : ℚ)
    (h : enc (103 / 200) = none) :
    compressToTargetSize enc targetKB = (enc (4 / 5), [103 / 200, 4 / 5]) ∧
    ∀ (target fuel : ℕ) (low high : ℚ) (best : Option ℕ), enc ((low + high) / 2) = none →
      cttsLoop enc target (fuel + 1) low high best =
        (CttsExit.finished best, [(low + high) / 2]) := by
  have hloop : ∀ (target fuel : ℕ) (low high : ℚ) (best : Option ℕ),
      enc ((low + high) / 2) = none →
      cttsLoop enc target (fuel + 1) low high best =
        (CttsExit.finished best, [(low + high) / 2]) := by
    intro target fuel low high best hn
    simp only [cttsLoop]
    rw [hn]
  have h515 : ((1 : ℚ) / 20 + 49 / 50) / 2 = 103 / 200 := by norm_num
  refine ⟨?_, hloop⟩
  simp only [compressToTargetSize]
  rw [show (12 : ℕ) = 11 + 1 from rfl]
  rw [hloop (kbToBytes targetKB) 11 (1 / 20) (49 / 50) none (by rw [h515]; exact h)]
  rw [h515]
  rfl

/-- Witness for the amended C8 under the concrete one-null encoder. -/
theorem compressToTargetSize_single_null_fallback_witness :
    encOneNull (103 / 200) = none ∧
    compressToTargetSize encOneNull 100 = (encOneNull (4 / 5), [103 / 200, 4 / 5]) :=
  ⟨by simp [encOneNull],
    (compressToTargetSize_single_null_fallback encOneNull 100 (by simp [encOneNull])).1⟩

/-- Claim C9: for every pixel surface, the reorientation transforms for tags
2, 3, 4, 5 and 7 are involutions (applying them twice returns the original
surface bit-for-bit), and the transforms for tags 6 and 8 are mutual
inverses in both orders. -/
theorem applyOrientation_involutions (c : Canvas) :
    Canvas.EqOn (applyOrientation (applyOrientation c 2) 2) c ∧
    Canvas.EqOn (applyOrientation (applyOrientation c 3) 3) c ∧
    Canvas.EqOn (applyOrientation (applyOrientation c 4) 4) c ∧
    Canvas.EqOn (applyOrientation (applyOrientation c 5) 5) c ∧
    Canvas.EqOn (applyOrientation (applyOrientation c 7) 7) c ∧
    Canvas.EqOn (applyOrientation (applyOrientation c 6) 8) c ∧
    Canvas.EqOn (applyOrientation (applyOrientation c 8) 6) c := by
  refine ⟨⟨rfl, rfl, ?_⟩, ⟨rfl, rfl, ?_⟩, ⟨rfl, rfl, ?_⟩, ⟨rfl, rfl, ?_⟩, ⟨rfl, rfl, ?_⟩,
    ⟨rfl, rfl, ?_⟩, ⟨rfl, rfl, ?_⟩⟩ <;> intro x y hx hy
  · have hx' : x < c.width := hx
    show c.pix (c.width - 1 - (c.width - 1 - x)) y = c.pix x y
    rw [(by omega : c.width - 1 - (c.width - 1 - x) = x)]
  · have hx' : x < c.width := hx
    have hy' : y < c.height := hy
    show c.pix (c.width - 1 - (c.width - 1 - x)) (c.height - 1 - (c.height - 1 - y)) = c.pix x y
    rw [(by omega : c.width - 1 - (c.width - 1 - x) = x),
      (by omega : c.height - 1 - (c.height - 1 - y) = y)]
  · have hy' : y < c.height := hy
    show c.pix x (c.height - 1 - (c.height - 1 - y)) = c.pix x y
    rw [(by omega : c.height - 1 - (c.height - 1 - y) = y)]
  · rfl
  · have hx' : x < c.width := hx
    have hy' : y < c.height := hy
    show c.pix (c.width - 1 - (c.width - 1 - x)) (c.height - 1 - (c.height - 1 - y)) = c.pix x y
    rw [(by omega : c.width - 1 - (c.width - 1 - x) = x),
      (by omega : c.height - 1 - (c.height - 1 - y) = y)]
  · have hy' : y < c.height := hy
    show c.pix x (c.height - 1 - (c.height - 1 - y)) = c.pix x y
    rw [(by omega : c.height - 1 - (c.height - 1 - y) = y)]
  · have hx' : x < c.width := hx
    show c.pix (c.width - 1 - (c.width - 1 - x)) y = c.pix x y
    rw [(by omega : c.width - 1 - (c.width - 1 - x) = x)]

/-- Witness for C9 at a concrete surface. -/
theorem applyOrientation_involutions_witness :
    Canvas.EqOn (applyOrientation (applyOrientation testCanvas 2) 2) testCanvas ∧
    Canvas.EqOn (applyOrientation (applyOrientation testCanvas 6) 8) testCanvas :=
  ⟨(applyOrientation_involutions testCanvas).1,
    (applyOrientation_involutions testCanvas).2.2.2.2.2.1⟩

/-- Claim C10: in `tryMatchTargetSize` with a lossy requested mime type, when
the initial baseline encode at the upper quality bound 0.98 already fits the
target byte budget, the function returns that baseline blob immediately with
the input canvas's width and height, and the trace shows the baseline encode
was the only encoder call — no bisection iteration ran. -/
theorem tryMatchTargetSize_baseline_fits (encA : ℕ → ℕ → Mime → ℚ → ℕ) (canvas : Canvas)
    (targetKB : ℚ) (mimePref : Option Mime)
    (hm : mimePref.getD Mime.jpeg ≠ Mime.png)
    (hb : encA canvas.width canvas.height (mimePref.getD Mime.jpeg) (49 / 50) ≤
      (max 1 ⌊targetKB * 1024⌋).toNat) :
    tryMatchTargetSize encA canvas targetKB mimePref =
      ({ blob := { mime := mimePref.getD Mime.jpeg, quality := 49 / 50,
                   size := encA canvas.width canvas.height (mimePref.getD Mime.jpeg) (49 / 50) },
         width := canvas.width, height := canvas.height, mime := mimePref.getD Mime.jpeg },
       [(canvas.width, canvas.height, mimePref.getD Mime.jpeg, 49 / 50)]) := by
  rcases hcase : mimePref.getD Mime.jpeg with _ | _ | _
  · rw [hcase] at hb
    rw [tryMatchTargetSize, hcase]
    rw [show (8 : ℕ) = 7 + 1 from rfl]
    simp only [tmtOuter]
    simp [hb]
  · rw [hcase] at hb
    rw [tryMatchTargetSize, hcase]
    rw [show (8 : ℕ) = 7 + 1 from rfl]
    simp only [tmtOuter]
    simp [hb]
  · exact absurd hcase hm

/-- Witness for C10: a constant 100-byte encoder against a 1 KB budget with
an explicit WebP preference. -/
theorem tryMatchTargetSize_baseline_fits_witness :
    (some Mime.webp).getD Mime.jpeg ≠ Mime.png ∧
    (fun _ _ _ _ => 100 : ℕ → ℕ → Mime → ℚ → ℕ) testCanvas.width testCanvas.height
      ((some Mime.webp).getD Mime.jpeg) (49 / 50) ≤ (max 1 ⌊(1 : ℚ) * 1024⌋).toNat ∧
    tryMatchTargetSize (fun _ _ _ _ => 100) testCanvas 1 (some Mime.webp) =
      ({ blob := { mime := (some Mime.webp).getD Mime.jpeg, quality := 49 / 50,
                   size := (fun _ _ _ _ => 100 : ℕ → ℕ → Mime → ℚ → ℕ) testCanvas.width
                     testCanvas.height ((some Mime.webp).getD Mime.jpeg) (49 / 50) },
         width := testCanvas.width, height := testCanvas.height,
         mime := (some Mime.webp).getD Mime.jpeg },
       [(testCanvas.width, testCanvas.height, (some Mime.webp).getD Mime.jpeg, 49 / 50)]) :=
  ⟨by decide, by norm_num,
    tryMatchTargetSize_baseline_fits (fun _ _ _ _ => 100) testCanvas 1 (some Mime.webp)
      (by decide) (by norm_num)⟩
